/-
  Verification development for the ai-integration-portfolio repository.

  Shallow embedding of the two pipelines (AI content analyzer and
  morning-update generator).  External effects (HTTP download, the
  chat-completion endpoint, the standard JSON parser) are modelled as
  explicit outcome parameters; the control flow, field assignments and
  arithmetic of the Python source are translated directly.
-/
import Mathlib

namespace Portfolio

/-! ## Cost calculation (src/ai-content-analyzer/text_analyzer.py, calculate_cost)

Numbers are modelled two ways: `calculate_cost` evaluates the source's
formula in exact rational arithmetic, and `calculate_cost_f64F` evaluates
the same straight-line code under IEEE-754 binary64 round-to-nearest-even
semantics (CPython float semantics), with every literal, int-to-float
division, multiplication and addition correctly rounded. -/

/-- Exact-arithmetic translation of `calculate_cost`:
`(prompt_tokens / 1_000_000) * 0.150 + (completion_tokens / 1_000_000) * 0.600`. -/
def calculate_cost (prompt_tokens completion_tokens : ℕ) : ℚ :=
  let input_price_per_million : ℚ := 0.150
  let output_price_per_million : ℚ := 0.600
  let input_cost := ((prompt_tokens : ℚ) / 1000000) * input_price_per_million
  let output_cost := ((completion_tokens : ℚ) / 1000000) * output_price_per_million
  input_cost + output_cost

/-- An unreduced non-negative fraction `num / den`, the carrier for the
binary64 rounding model (kept in raw `ℕ` pairs so that all operations are
kernel-computable). -/
structure Frac where
  num : ℕ
  den : ℕ
deriving Repr, DecidableEq

/-- Exact product of fractions. -/
def Frac.mul (x y : Frac) : Frac := ⟨x.num * y.num, x.den * y.den⟩

/-- Exact sum of fractions. -/
def Frac.add (x y : Frac) : Frac := ⟨x.num * y.den + y.num * x.den, x.den * y.den⟩

/-- Strict comparison of fractions by cross multiplication. -/
def Frac.blt (x y : Frac) : Bool := x.num * y.den < y.num * x.den

/-- Non-strict comparison of fractions by cross multiplication. -/
def Frac.ble (x y : Frac) : Bool := x.num * y.den ≤ y.num * x.den

/-- The rational value of a fraction. -/
def Frac.toRat (x : Frac) : ℚ := (x.num : ℚ) / (x.den : ℚ)

/-- Floor of the base-2 logarithm, by structural recursion on a fuel
argument (one unit of fuel per halving). -/
def log2fuel : ℕ → ℕ → ℕ
  | 0, _ => 0
  | fuel + 1, n => if n ≤ 1 then 0 else log2fuel fuel (n / 2) + 1

/-- `⌊log₂ n⌋` for `0 < n < 2 ^ 1100` (every magnitude reachable in the
binary64 normal range, whose overflow threshold is `2 ^ 1024`). -/
def log2n (n : ℕ) : ℕ := log2fuel 1100 n

/-- Round a non-negative fraction to the nearest natural number, ties to
even. -/
def rheF (x : Frac) : ℕ :=
  let f := x.num / x.den
  let r2 := 2 * (x.num % x.den)
  if r2 < x.den then f
  else if x.den < r2 then f + 1
  else if f % 2 = 0 then f else f + 1

/-- The fraction `2 ^ e` for a signed exponent. -/
def pow2 : ℤ → Frac
  | .ofNat k => ⟨2 ^ k, 1⟩
  | .negSucc k => ⟨1, 2 ^ (k + 1)⟩

/-- `x / 2 ^ e` for a signed exponent. -/
def Frac.shr (x : Frac) : ℤ → Frac
  | .ofNat k => ⟨x.num, x.den * 2 ^ k⟩
  | .negSucc k => ⟨x.num * 2 ^ (k + 1), x.den⟩

/-- Round a positive fraction to the nearest IEEE-754 binary64 value
(round-to-nearest, ties to even), in the normal range: the binade exponent
is located from the bit lengths of numerator and denominator, corrected by
one comparison, and the 53-bit significand is produced by rounding at that
exact scale. -/
def round64posF (x : Frac) : Frac :=
  let e0 : ℤ := (log2n x.num : ℤ) - (log2n x.den : ℤ) - 52
  let e : ℤ :=
    if Frac.blt x (pow2 (52 + e0)) then e0 - 1
    else if Frac.ble (pow2 (53 + e0)) x then e0 + 1
    else e0
  Frac.mul ⟨rheF (x.shr e), 1⟩ (pow2 e)

/-- Round a non-negative fraction to the nearest binary64 value. -/
def round64F (x : Frac) : Frac :=
  if x.num = 0 then ⟨0, 1⟩ else round64posF x

/-- `calculate_cost` as actually evaluated by the CPython interpreter: the
decimal literals `0.150` and `0.600` denote their nearest binary64 values,
and each `/`, `*`, `+` is a correctly rounded binary64 operation. -/
def calculate_cost_f64F (prompt_tokens completion_tokens : ℕ) : Frac :=
  let input_price_per_million := round64F ⟨150, 1000⟩
  let output_price_per_million := round64F ⟨600, 1000⟩
  let input_cost := round64F (Frac.mul (round64F ⟨prompt_tokens, 1000000⟩) input_price_per_million)
  let output_cost := round64F (Frac.mul (round64F ⟨completion_tokens, 1000000⟩) output_price_per_million)
  round64F (Frac.add input_cost output_cost)

/-! ## Article extractor (src/ai-content-analyzer/article_extractor.py)

`extract_article` is embedded as a function of the URL together with an
explicit `FetchOutcome` describing what the external download/parse
library did; raising `ValueError` is modelled by `Except.error`. -/

/-- Python's `str.strip()` with no argument: remove leading and trailing
whitespace. -/
def pyStrip (s : String) : String :=
  ⟨((s.data.dropWhile Char.isWhitespace).reverse.dropWhile Char.isWhitespace).reverse⟩

/-- Python's `str.startswith(pat)`. -/
def pyStartsWith (s pat : String) : Bool :=
  pat.data.isPrefixOf s.data

/-- The result dictionary built by `extract_article`. -/
structure ExtractionResult where
  title : Option String
  text : Option String
  authors : Option (List String)
  publish_date : Option String
  url : String
  success : Bool
  error : Option String
deriving Repr, DecidableEq

/-- What the external newspaper3k download/parse stages did:
the download timed out; the download raised a non-timeout exception;
`parse()` raised; or parsing produced the article attributes
(`title`, `text`, `authors`, iso-formatted `publish_date`). -/
inductive FetchOutcome where
  | timeout
  | downloadError (msg : String)
  | parseError (msg : String)
  | parsed (title : Option String) (text : Option String)
      (authors : List String) (publishDate : Option String)
deriving Repr, DecidableEq

/-- The post-parse content check of `extract_article`:
`not result['text'] or len(result['text'].strip()) < 50`. -/
def textTooShort : Option String → Bool
  | none => true
  | some s => s = "" || (pyStrip s).length < 50

/-- Translation of `extract_article`.  The two leading `raise ValueError`
branches become `Except.error`; every other path returns a result record.
(The `not url or not isinstance(url, str)` guard is the `url = ""` test in
this typed embedding.) -/
def extract_article (url : String) (outcome : FetchOutcome) :
    Except String ExtractionResult :=
  if url = "" then
    Except.error "URL must be a non-empty string"
  else if ¬ (pyStartsWith url "http://" ∨ pyStartsWith url "https://") then
    Except.error ("Invalid URL format: " ++ url ++ ". Must start with http:// or https://")
  else
    let result : ExtractionResult :=
      { title := none, text := none, authors := none, publish_date := none,
        url := url, success := false, error := none }
    match outcome with
    | .timeout =>
        let timeout_msg := "Request timed out after 15 seconds while downloading from " ++ url
        Except.ok { result with error := some timeout_msg, success := false }
    | .downloadError msg =>
        Except.ok { result with
          error := some ("Failed to extract article from " ++ url ++ ": " ++ msg),
          success := false }
    | .parseError msg =>
        Except.ok { result with
          error := some ("Failed to extract article from " ++ url ++ ": " ++ msg),
          success := false }
    | .parsed title text authors publishDate =>
        let r1 : ExtractionResult :=
          { result with
            title := title,
            text := text,
            authors := if authors = [] then none else some authors,
            publish_date := publishDate,
            success := true }
        if textTooShort r1.text then
          Except.ok { r1 with
            success := false,
            error := some "Extracted text is too short or empty. Article may not have been parsed correctly." }
        else
          Except.ok r1

/-! ## Text analyzer (src/ai-content-analyzer/text_analyzer.py)

`analyze_article` is embedded as a function of the input record, an
explicit outcome of the chat-completion call, and the behaviour of the
standard JSON decoder on the returned content. -/

/-- Token usage metadata on a chat-completion response. -/
structure Usage where
  prompt_tokens : ℕ
  completion_tokens : ℕ
deriving Repr, DecidableEq

/-- One choice of a chat-completion response; `content` is the optional
message text. -/
structure MsgChoice where
  content : Option String
deriving Repr, DecidableEq

/-- A chat-completion response: optional usage metadata plus the list of
choices. -/
structure ChatResponse where
  usage : Option Usage
  choices : List MsgChoice
deriving Repr, DecidableEq

/-- Outcome of `client.chat.completions.create`: either the call raised
(network/API error) or it returned a response. -/
inductive ApiOutcome where
  | raised (msg : String)
  | response (r : ChatResponse)
deriving Repr, DecidableEq

/-- Sentiment sub-record of an analysis. -/
structure Sentiment where
  label : String
  confidence : ℚ
deriving Repr, DecidableEq

/-- Token accounting stored in an `AnalysisResult`. -/
structure TokensUsed where
  prompt : ℕ
  completion : ℕ
  total : ℕ
deriving Repr, DecidableEq

/-- The fields `analyze_article` reads out of a parsed JSON object via
`parsed.get(key, default)`; a missing key is `none`. -/
structure ParsedAnalysis where
  summary : Option String
  sentiment : Option Sentiment
  key_points : Option (List String)
  reading_time_minutes : Option ℤ
deriving Repr, DecidableEq

/-- What `json.loads` did on the model's text output: raised
`JSONDecodeError`; produced a non-dict value (so the subsequent
`parsed.get` raises an `AttributeError` with message `msg`); or produced a
dict with the fields of interest. -/
inductive JsonLoadsResult where
  | decodeError (msg : String)
  | nonDict (msg : String)
  | dict (p : ParsedAnalysis)
deriving Repr, DecidableEq

/-- The result dictionary built by `analyze_article`. -/
structure AnalysisResult where
  summary : String
  sentiment : Sentiment
  key_points : List String
  reading_time_minutes : ℤ
  tokens_used : TokensUsed
  cost_usd : ℚ
  success : Bool
  error : Option String
deriving Repr, DecidableEq

/-- The slice of an extractor record that `analyze_article` reads
(`article_data.get("title")`, `article_data.get("text")`). -/
structure ArticleData where
  title : Option String
  text : Option String
deriving Repr, DecidableEq

/-- `usage.prompt_tokens if usage is not None else 0`. -/
def usagePromptTokens : Option Usage → ℕ
  | some u => u.prompt_tokens
  | none => 0

/-- `usage.completion_tokens if usage is not None else 0`. -/
def usageCompletionTokens : Option Usage → ℕ
  | some u => u.completion_tokens
  | none => 0

/-- The zero-valued base record `analyze_article` starts from. -/
def analysisBase : AnalysisResult :=
  { summary := "", sentiment := { label := "", confidence := 0 },
    key_points := [], reading_time_minutes := 0,
    tokens_used := { prompt := 0, completion := 0, total := 0 },
    cost_usd := 0, success := false, error := none }

/-- Translation of `analyze_article`.  `call` is the outcome of the
chat-completion request and `jsonLoads` the behaviour of the JSON decoder
on the returned content; both are external effects made explicit. -/
def analyze_article (article_data : ArticleData) (call : ApiOutcome)
    (jsonLoads : String → JsonLoadsResult) : AnalysisResult :=
  let result := analysisBase
  let text := article_data.text.getD ""
  if pyStrip text = "" then
    { result with error := some "Article text is empty. Cannot analyze." }
  else
    match call with
    | .raised msg =>
        { result with
          error := some ("Error during article analysis: " ++ msg),
          success := false }
    | .response r =>
        let prompt_tokens := usagePromptTokens r.usage
        let completion_tokens := usageCompletionTokens r.usage
        let total_tokens := prompt_tokens + completion_tokens
        let result1 :=
          { result with
            tokens_used :=
              { prompt := prompt_tokens, completion := completion_tokens,
                total := total_tokens },
            cost_usd := calculate_cost prompt_tokens completion_tokens }
        match r.choices with
        | [] =>
            { result1 with
              error := some ("Error during article analysis: " ++ "list index out of range"),
              success := false }
        | choice0 :: _ =>
            match choice0.content with
            | none => { result1 with error := some "OpenAI response content is empty." }
            | some content =>
                if content = "" then
                  { result1 with error := some "OpenAI response content is empty." }
                else
                  match jsonLoads content with
                  | .decodeError msg =>
                      { result1 with
                        error := some ("Failed to parse JSON from model response: " ++ msg) }
                  | .nonDict msg =>
                      { result1 with
                        error := some ("Error during article analysis: " ++ msg),
                        success := false }
                  | .dict parsed =>
                      { result1 with
                        summary := parsed.summary.getD "",
                        sentiment := parsed.sentiment.getD { label := "", confidence := 0 },
                        key_points := parsed.key_points.getD [],
                        reading_time_minutes := parsed.reading_time_minutes.getD 0,
                        success := true,
                        error := none }

/-! ## Pipeline step (src/ai-content-analyzer/main.py, main loop body)

One iteration of the interactive loop for a given URL: extraction,
success check, analysis, success check; on any failure the loop
`continue`s without the later stages (modelled as `none`). -/

/-- One loop iteration of `main` for one URL: the analyzer is invoked only
when extraction returned a record with `success = true`, and results are
kept (displayed/saved) only when both stages succeeded. -/
def pipeline_step (extraction : Except String ExtractionResult)
    (analyze : ExtractionResult → AnalysisResult) :
    Option (ExtractionResult × AnalysisResult) :=
  match extraction with
  | .error _ => none
  | .ok article =>
      if article.success = false then none
      else
        let analysis := analyze article
        if analysis.success = false then none
        else some (article, analysis)

/-! ## Morning update (src/morning_update/*.py and
src/portfolio/python-fundamentals/morning_update/openai_client.py) -/

/-- The weather record built by `get_weather_forecast`. -/
structure WeatherSnapshot where
  name : String
  summary : String
  temperature : Option ℚ
  precipitation_total : Option ℚ
  precipitation_type : Option String
deriving Repr, DecidableEq

/-- One headline record built by `get_news_headlines`. -/
structure Headline where
  title : String
  description : String
deriving Repr, DecidableEq

/-- A failure of one `requests.get` call, as caught by the fetchers:
connection error, timeout, non-2xx HTTP status, or any other request
exception. -/
inductive ReqFailure where
  | connectionError
  | timeout
  | httpError (status : ℕ) (msg : String)
  | requestException (msg : String)
deriving Repr, DecidableEq

/-- Outcome of one `requests.get` + `raise_for_status` + `json()` round:
either one of the caught failures, or a decoded JSON body of type `α`. -/
inductive ReqOutcome (α : Type) where
  | failure (f : ReqFailure)
  | ok (body : α)
deriving Repr, DecidableEq

/-- One entry of the place-search response used by the weather fetcher. -/
structure PlaceEntry where
  place_id : String
  name : String
deriving Repr, DecidableEq

/-- The `precipitation` sub-object of the weather response
(`.get("total")` / `.get("TYPE")`). -/
structure Precipitation where
  total : Option ℚ
  ptype : Option String
deriving Repr, DecidableEq

/-- The `current` sub-object of the weather response. -/
structure CurrentWeather where
  summary : Option String
  temperature : Option ℚ
  precipitation : Option Precipitation
deriving Repr, DecidableEq

/-- The decoded body of the weather endpoint (`data.get("current", {})`). -/
structure MeteoData where
  current : Option CurrentWeather
deriving Repr, DecidableEq

/-- Translation of `get_weather_forecast` (src/morning_update/meteo_client.py).
The two HTTP calls are explicit outcomes; the Python `return {}` paths are
`none`. -/
def get_weather_forecast (city : String)
    (placeReq : ReqOutcome (List PlaceEntry))
    (meteoReq : ReqOutcome MeteoData) : Option WeatherSnapshot :=
  match placeReq with
  | .failure _ => none
  | .ok place_data =>
      match place_data with
      | [] => none
      | p :: _ =>
          match meteoReq with
          | .failure _ => none
          | .ok data =>
              let current_weather := data.current.getD
                { summary := none, temperature := none, precipitation := none }
              let summary := current_weather.summary.getD "No summary available"
              let temperature := current_weather.temperature
              let precipitation := current_weather.precipitation
              let precipitation_total :=
                match precipitation with
                | none => none
                | some pr => pr.total
              let precipitation_type :=
                match precipitation with
                | none => none
                | some pr => pr.ptype
              some
                { name := p.name, summary := summary, temperature := temperature,
                  precipitation_total := precipitation_total,
                  precipitation_type := precipitation_type }

/-- One article object of the news-endpoint response
(`article.get("title", "No Title")`, `article.get("description", "No Description")`). -/
structure NewsArticle where
  title : Option String
  description : Option String
deriving Repr, DecidableEq

/-- Translation of `get_news_headlines` (src/morning_update/news_client.py).
The HTTP call is an explicit outcome whose decoded body is the
`data["articles"]` list; the Python `return []` failure path is `[]`. -/
def get_news_headlines (req : ReqOutcome (List NewsArticle)) : List Headline :=
  match req with
  | .failure _ => []
  | .ok articles =>
      articles.map (fun a =>
        { title := a.title.getD "No Title",
          description := a.description.getD "No Description" })

/-- Translation of `generate_update`
(src/morning_update/openai_client.py): builds the prompt from the weather
and headlines and returns `response.choices[0].message.content` — nothing
else.  The response of the chat-completion call is an explicit parameter;
`weather` and `headlines` only feed the prompt text. -/
def generate_update (weather : WeatherSnapshot) (headlines : List Headline)
    (response : ChatResponse) : Except String (Option String) :=
  match response.choices with
  | [] => Except.error "list index out of range"
  | choice0 :: _ => Except.ok choice0.content

/-- Translation of `generate_text`
(src/portfolio/python-fundamentals/morning_update/openai_client.py):
returns `response.choices[0].message.content` for the given prompt. -/
def generate_text (prompt : String) (response : ChatResponse) :
    Except String (Option String) :=
  match response.choices with
  | [] => Except.error "list index out of range"
  | choice0 :: _ => Except.ok choice0.content

/-- The `UpdateResult` record that §3/§4.3 of the spec claims the
morning-update generator produces; stated from the spec's words
(`{text: string, costUsd: float}`, cost computed with the §4.2 pricing
constants from the response's token counts) for comparison with the
source's `generate_update`. -/
structure UpdateResult where
  text : String
  costUsd : ℚ
deriving Repr, DecidableEq

/-- The morning-update generator as the spec describes it (the claim under
test): raw text plus a cost figure computed from the response's token
counts with the §4.2 pricing constants.  This definition follows the
spec's words, not the source, and exists to be compared with
`generate_update`. -/
def generate_update_spec (weather : WeatherSnapshot) (headlines : List Headline)
    (response : ChatResponse) : UpdateResult :=
  let p := match response.usage with | some u => u.prompt_tokens | none => 0
  let c := match response.usage with | some u => u.completion_tokens | none => 0
  let firstContent :=
    match response.choices with
    | [] => none
    | choice0 :: _ => choice0.content
  { text := firstContent.getD "",
    costUsd := calculate_cost p c }

/-! ## Persisted JSON file (src/ai-content-analyzer/main.py, save_results_to_file)

The persisted file is modelled at the JSON-value level: `json.dump` with
`ensure_ascii=False` followed by `json.load` is the identity on JSON
values (the standard library serializer/parser pair), so the file content
is represented by the `Json` tree that `save_results_to_file` builds, and
reading the file back is decoding that tree. -/

/-- A JSON value. -/
inductive Json where
  | null
  | jbool (b : Bool)
  | jnum (q : ℚ)
  | jstr (s : String)
  | jarr (elems : List Json)
  | jobj (fields : List (String × Json))

/-- Encode an optional string (`None` becomes JSON `null`). -/
def optStrJson : Option String → Json
  | none => Json.null
  | some s => Json.jstr s

/-- The JSON value of the `article` dictionary, field for field as built
by `extract_article` and serialized by `json.dump`. -/
def ExtractionResult.toJson (r : ExtractionResult) : Json :=
  Json.jobj
    [("title", optStrJson r.title),
     ("text", optStrJson r.text),
     ("authors", match r.authors with
                 | none => Json.null
                 | some l => Json.jarr (l.map Json.jstr)),
     ("publish_date", optStrJson r.publish_date),
     ("url", Json.jstr r.url),
     ("success", Json.jbool r.success),
     ("error", optStrJson r.error)]

/-- The JSON value of the `sentiment` sub-dictionary. -/
def Sentiment.toJson (s : Sentiment) : Json :=
  Json.jobj [("label", Json.jstr s.label), ("confidence", Json.jnum s.confidence)]

/-- The JSON value of the `tokens_used` sub-dictionary. -/
def TokensUsed.toJson (t : TokensUsed) : Json :=
  Json.jobj
    [("prompt", Json.jnum (t.prompt : ℚ)),
     ("completion", Json.jnum (t.completion : ℚ)),
     ("total", Json.jnum (t.total : ℚ))]

/-- The JSON value of the `analysis` dictionary, field for field as built
by `analyze_article` and serialized by `json.dump`. -/
def AnalysisResult.toJson (a : AnalysisResult) : Json :=
  Json.jobj
    [("summary", Json.jstr a.summary),
     ("sentiment", a.sentiment.toJson),
     ("key_points", Json.jarr (a.key_points.map Json.jstr)),
     ("reading_time_minutes", Json.jnum (a.reading_time_minutes : ℚ)),
     ("tokens_used", a.tokens_used.toJson),
     ("cost_usd", Json.jnum a.cost_usd),
     ("success", Json.jbool a.success),
     ("error", optStrJson a.error)]

/-- Translation of the `combined_data` object of `save_results_to_file`:
`{"article": article, "analysis": analysis, "saved_at": timestamp}`. -/
def save_results (article : ExtractionResult) (analysis : AnalysisResult)
    (saved_at : String) : Json :=
  Json.jobj
    [("article", article.toJson),
     ("analysis", analysis.toJson),
     ("saved_at", Json.jstr saved_at)]

/-- Lookup of a key in an association list of JSON object fields. -/
def lookupField : List (String × Json) → String → Option Json
  | [], _ => none
  | (k, v) :: rest, key => if k = key then some v else lookupField rest key

/-- Field lookup in a JSON object. -/
def Json.getField : Json → String → Option Json
  | .jobj fields, key => lookupField fields key
  | _, _ => none

/-- Read a JSON value as a string. -/
def Json.asStr : Json → Option String
  | .jstr s => some s
  | _ => none

/-- Read a JSON value as a nullable string. -/
def Json.asOptStr : Json → Option (Option String)
  | .null => some none
  | .jstr s => some (some s)
  | _ => none

/-- Read a JSON value as a boolean. -/
def Json.asBool : Json → Option Bool
  | .jbool b => some b
  | _ => none

/-- Read a JSON value as a rational number. -/
def Json.asNum : Json → Option ℚ
  | .jnum q => some q
  | _ => none

/-- Read a JSON value as an integer. -/
def Json.asInt : Json → Option ℤ
  | .jnum q => if q.den = 1 then some q.num else none
  | _ => none

/-- Read a JSON value as a natural number. -/
def Json.asNat : Json → Option ℕ
  | .jnum q => if q.den = 1 ∧ 0 ≤ q.num then some q.num.toNat else none
  | _ => none

/-- Decode each element of a list of JSON values as a string. -/
def decodeStrs : List Json → Option (List String)
  | [] => some []
  | j :: rest =>
      match j.asStr, decodeStrs rest with
      | some s, some l => some (s :: l)
      | _, _ => none

/-- Read a JSON value as a list of strings. -/
def Json.asStrList : Json → Option (List String)
  | .jarr xs => decodeStrs xs
  | _ => none

/-- Read a JSON value as a nullable list of strings. -/
def Json.asOptStrList : Json → Option (Option (List String))
  | .null => some none
  | .jarr xs => (decodeStrs xs).map some
  | _ => none

/-- Decode the `article` object of a persisted file back into an
`ExtractionResult` (the read-back direction of the round trip). -/
def ExtractionResult.fromJson (j : Json) : Option ExtractionResult := do
  let title ← Json.asOptStr (← j.getField "title")
  let text ← Json.asOptStr (← j.getField "text")
  let authors ← Json.asOptStrList (← j.getField "authors")
  let publish_date ← Json.asOptStr (← j.getField "publish_date")
  let url ← Json.asStr (← j.getField "url")
  let success ← Json.asBool (← j.getField "success")
  let error ← Json.asOptStr (← j.getField "error")
  pure { title := title, text := text, authors := authors,
         publish_date := publish_date, url := url, success := success,
         error := error }

/-- Decode a `sentiment` object. -/
def Sentiment.fromJson (j : Json) : Option Sentiment := do
  let label ← Json.asStr (← j.getField "label")
  let confidence ← Json.asNum (← j.getField "confidence")
  pure { label := label, confidence := confidence }

/-- Decode a `tokens_used` object. -/
def TokensUsed.fromJson (j : Json) : Option TokensUsed := do
  let prompt ← Json.asNat (← j.getField "prompt")
  let completion ← Json.asNat (← j.getField "completion")
  let total ← Json.asNat (← j.getField "total")
  pure { prompt := prompt, completion := completion, total := total }

/-- Decode the `analysis` object of a persisted file back into an
`AnalysisResult`. -/
def AnalysisResult.fromJson (j : Json) : Option AnalysisResult := do
  let summary ← Json.asStr (← j.getField "summary")
  let sentiment ← Sentiment.fromJson (← j.getField "sentiment")
  let key_points ← Json.asStrList (← j.getField "key_points")
  let reading_time_minutes ← Json.asInt (← j.getField "reading_time_minutes")
  let tokens_used ← TokensUsed.fromJson (← j.getField "tokens_used")
  let cost_usd ← Json.asNum (← j.getField "cost_usd")
  let success ← Json.asBool (← j.getField "success")
  let error ← Json.asOptStr (← j.getField "error")
  pure { summary := summary, sentiment := sentiment, key_points := key_points,
         reading_time_minutes := reading_time_minutes,
         tokens_used := tokens_used, cost_usd := cost_usd, success := success,
         error := error }

/-- Parse a persisted file back into its article and analysis records. -/
def parse_saved (j : Json) : Option (ExtractionResult × AnalysisResult) := do
  let article ← ExtractionResult.fromJson (← j.getField "article")
  let analysis ← AnalysisResult.fromJson (← j.getField "analysis")
  pure (article, analysis)

/-! ## Theorems -/

/-- A string with a non-empty character list is not the empty string. -/
lemma ne_empty_of_data_ne_nil (s : String) (h : s.data ≠ []) : s ≠ "" := by
  intro he
  subst he
  exact h rfl

/-- Appending to the right preserves having a non-empty character list. -/
lemma data_append_ne_nil (a b : String) (ha : a.data ≠ []) : (a ++ b).data ≠ [] := by
  rw [String.data_append]
  simp [ha]

set_option maxRecDepth 10000 in
/-- C2, counterexample: `calculate_cost(1000, 2000)` does not return
exactly `0.00135` in the program's float arithmetic.  Under IEEE-754
binary64 evaluation the result is the double `6225776124876973 / 2^62`
(printed `0.0013499999999999999`), which differs both from the double
denoted by the literal `0.00135` (one ulp above) and from the exact
rational `0.00135`; only exact arithmetic gives `0.00135`. -/
theorem C2_calculate_cost_exact_counterexample :
    (calculate_cost_f64F 1000 2000).toRat ≠ (round64F ⟨135, 100000⟩).toRat ∧
    (calculate_cost_f64F 1000 2000).toRat ≠ 0.00135 ∧
    calculate_cost 1000 2000 = 0.00135 := by
  have h1 : calculate_cost_f64F 1000 2000 =
      ⟨6225776124876973, 4611686018427387904⟩ := by decide
  have h2 : round64F ⟨135, 100000⟩ = ⟨6225776124876974, 4611686018427387904⟩ := by decide
  refine ⟨?_, ?_, ?_⟩
  · rw [h1, h2]
    unfold Frac.toRat
    norm_num
  · rw [h1]
    unfold Frac.toRat
    norm_num
  · norm_num [calculate_cost]

set_option maxRecDepth 10000 in
/-- C2, amended: `calculate_cost(p, c)` computes
`(p / 1_000_000) * 0.150 + (c / 1_000_000) * 0.600`; in exact arithmetic
the four data points give `0.0`, `0.150`, `0.600` and `0.00135`, and under
IEEE-754 binary64 evaluation the first three are still exact (the results
are the doubles denoted by `0.0`, `0.150`, `0.600`) while `(1000, 2000)`
returns the double `6225776124876973 / 2^62`, one ulp below `0.00135`. -/
theorem C2_calculate_cost_amended :
    (∀ p c : ℕ, calculate_cost p c =
      ((p : ℚ) / 1000000) * 0.150 + ((c : ℚ) / 1000000) * 0.600) ∧
    calculate_cost 0 0 = 0 ∧
    calculate_cost 1000000 0 = 0.150 ∧
    calculate_cost 0 1000000 = 0.600 ∧
    calculate_cost 1000 2000 = 0.00135 ∧
    (calculate_cost_f64F 0 0).toRat = 0 ∧
    calculate_cost_f64F 1000000 0 = round64F ⟨150, 1000⟩ ∧
    calculate_cost_f64F 0 1000000 = round64F ⟨600, 1000⟩ ∧
    (calculate_cost_f64F 1000 2000).toRat = 6225776124876973 / 4611686018427387904 := by
  have h0 : calculate_cost_f64F 0 0 = ⟨0, 1⟩ := by decide
  have h1 : calculate_cost_f64F 1000 2000 =
      ⟨6225776124876973, 4611686018427387904⟩ := by decide
  refine ⟨fun p c => rfl, by norm_num [calculate_cost], by norm_num [calculate_cost],
    by norm_num [calculate_cost], by norm_num [calculate_cost],
    by rw [h0]; unfold Frac.toRat; norm_num, by decide, by decide, ?_⟩
  rw [h1]
  unfold Frac.toRat
  norm_num

/-- C5: for every URL that is empty or does not start with `http://` or
`https://`, `extract_article` raises `ValueError` (an `Except.error` in
this embedding) before any network activity: no result record is
returned, and the raised error is independent of whatever the network
would have done (the fetch outcome is never consulted). -/
theorem C5_invalid_url_raises (url : String)
    (h : url = "" ∨ (pyStartsWith url "http://" = false ∧ pyStartsWith url "https://" = false)) :
    (∀ outcome, ∃ msg, extract_article url outcome = Except.error msg) ∧
    (∀ o1 o2, extract_article url o1 = extract_article url o2) := by
  have key : ∀ outcome, extract_article url outcome =
      (if url = "" then Except.error "URL must be a non-empty string"
       else Except.error ("Invalid URL format: " ++ url ++ ". Must start with http:// or https://")) := by
    intro o
    unfold extract_article
    rcases h with h | ⟨h1, h2⟩
    · simp [h]
    · by_cases hu : url = ""
      · simp [hu]
      · simp [hu, h1, h2]
  constructor
  · intro o
    rw [key o]
    by_cases hu : url = ""
    · exact ⟨_, by rw [if_pos hu]⟩
    · exact ⟨_, by rw [if_neg hu]⟩
  · intro o1 o2
    rw [key o1, key o2]

/-- C5, witness: the URL `ftp://example.com` raises for every fetch
outcome, with a result independent of the outcome. -/
theorem C5_invalid_url_raises_witness :
    (∃ msg, extract_article "ftp://example.com" FetchOutcome.timeout = Except.error msg) ∧
    extract_article "ftp://example.com" FetchOutcome.timeout =
      extract_article "ftp://example.com" (FetchOutcome.parsed none none [] none) :=
  ⟨(C5_invalid_url_raises "ftp://example.com" (Or.inr ⟨by decide, by decide⟩)).1 _,
   (C5_invalid_url_raises "ftp://example.com" (Or.inr ⟨by decide, by decide⟩)).2 _ _⟩

/-- C1: every record returned by `extract_article` with `success = true`
has a text that is non-empty and at least 50 characters after stripping,
and whenever the extracted text is absent, empty or shorter than 50
stripped characters the record has `success = false` with a non-empty
error string. -/
theorem C1_success_text_length (url : String) (outcome : FetchOutcome)
    (r : ExtractionResult) (h : extract_article url outcome = Except.ok r) :
    (r.success = true → ∃ s, r.text = some s ∧ s ≠ "" ∧ 50 ≤ (pyStrip s).length) ∧
    (textTooShort r.text = true → r.success = false ∧ ∃ e, r.error = some e ∧ e ≠ "") := by
  unfold extract_article at h
  by_cases hu : url = ""
  · rw [if_pos hu] at h
    exact absurd h (by simp)
  · rw [if_neg hu] at h
    by_cases hs : pyStartsWith url "http://" = true ∨ pyStartsWith url "https://" = true
    · rw [if_neg (not_not_intro hs)] at h
      rcases outcome with _ | msg | msg | ⟨title, text, authors, pd⟩
      · injection h with h
        subst h
        refine ⟨by simp, fun _ => ⟨rfl, _, rfl, ?_⟩⟩
        exact ne_empty_of_data_ne_nil _ (data_append_ne_nil _ _ (by decide))
      · injection h with h
        subst h
        refine ⟨by simp, fun _ => ⟨rfl, _, rfl, ?_⟩⟩
        exact ne_empty_of_data_ne_nil _
          (data_append_ne_nil _ _ (data_append_ne_nil _ _ (data_append_ne_nil _ _ (by decide))))
      · injection h with h
        subst h
        refine ⟨by simp, fun _ => ⟨rfl, _, rfl, ?_⟩⟩
        exact ne_empty_of_data_ne_nil _
          (data_append_ne_nil _ _ (data_append_ne_nil _ _ (data_append_ne_nil _ _ (by decide))))
      · simp only at h
        by_cases ht : textTooShort text = true
        · rw [if_pos ht] at h
          injection h with h
          subst h
          exact ⟨by simp, fun _ => ⟨rfl, _, rfl, by decide⟩⟩
        · rw [if_neg ht] at h
          injection h with h
          subst h
          constructor
          · intro _
            match text, ht with
            | some s, ht =>
                refine ⟨s, rfl, ?_, ?_⟩
                · intro he
                  exact ht (by simp [textTooShort, he])
                · by_contra hlen
                  exact ht (by simp [textTooShort]; omega)
          · intro htt
            exact absurd htt ht
    · rw [if_pos hs] at h
      exact absurd h (by simp)

/-- C1, witness: a timeout outcome yields a returned record with absent
text, `success = false` and a non-empty error. -/
theorem C1_success_text_length_witness :
    extract_article "https://a.com" FetchOutcome.timeout = Except.ok
      { title := none, text := none, authors := none, publish_date := none,
        url := "https://a.com", success := false,
        error := some "Request timed out after 15 seconds while downloading from https://a.com" } ∧
    (textTooShort (none : Option String) = true →
      ({ title := none, text := none, authors := none, publish_date := none,
         url := "https://a.com", success := false,
         error := some "Request timed out after 15 seconds while downloading from https://a.com"} : ExtractionResult).success = false ∧
      ∃ e, ({ title := none, text := none, authors := none, publish_date := none,
              url := "https://a.com", success := false,
              error := some "Request timed out after 15 seconds while downloading from https://a.com"} : ExtractionResult).error = some e ∧ e ≠ "") :=
  ⟨rfl, (C1_success_text_length "https://a.com" FetchOutcome.timeout _ rfl).2⟩

/-- C6: when the input text is missing, empty or whitespace-only,
`analyze_article` returns `success = false` with the explicit empty-text
error, zero token counts and zero cost, and never contacts the model
endpoint: the result is independent of the chat-completion outcome and of
the JSON decoder. -/
theorem C6_empty_text_fails_fast (a : ArticleData) (call : ApiOutcome)
    (jl : String → JsonLoadsResult)
    (h : pyStrip (a.text.getD "") = "") :
    (analyze_article a call jl).success = false ∧
    (analyze_article a call jl).error = some "Article text is empty. Cannot analyze." ∧
    (analyze_article a call jl).tokens_used =
      { prompt := 0, completion := 0, total := 0 } ∧
    (analyze_article a call jl).cost_usd = 0 ∧
    (∀ call2 jl2, analyze_article a call jl = analyze_article a call2 jl2) := by
  have key : ∀ c j, analyze_article a c j =
      { analysisBase with error := some "Article text is empty. Cannot analyze." } := by
    intro c j
    unfold analyze_article
    simp only [h, if_true]
  rw [key]
  exact ⟨rfl, rfl, rfl, rfl, fun c2 j2 => by simp only [key]⟩

/-- C6, witness: a whitespace-only text field short-circuits with zeroed
metrics and is independent of the model call. -/
theorem C6_empty_text_fails_fast_witness :
    pyStrip (((⟨some "Title", some "   "⟩ : ArticleData).text).getD "") = "" ∧
    (analyze_article ⟨some "Title", some "   "⟩ (ApiOutcome.raised "boom")
      (fun _ => JsonLoadsResult.decodeError "x")).success = false ∧
    (analyze_article ⟨some "Title", some "   "⟩ (ApiOutcome.raised "boom")
      (fun _ => JsonLoadsResult.decodeError "x")).tokens_used =
      { prompt := 0, completion := 0, total := 0 } ∧
    (analyze_article ⟨some "Title", some "   "⟩ (ApiOutcome.raised "boom")
      (fun _ => JsonLoadsResult.decodeError "x")).cost_usd = 0 :=
  ⟨by decide,
   (C6_empty_text_fails_fast ⟨some "Title", some "   "⟩ (ApiOutcome.raised "boom")
     (fun _ => JsonLoadsResult.decodeError "x") (by decide)).1,
   (C6_empty_text_fails_fast ⟨some "Title", some "   "⟩ (ApiOutcome.raised "boom")
     (fun _ => JsonLoadsResult.decodeError "x") (by decide)).2.2.1,
   (C6_empty_text_fails_fast ⟨some "Title", some "   "⟩ (ApiOutcome.raised "boom")
     (fun _ => JsonLoadsResult.decodeError "x") (by decide)).2.2.2.1⟩

/-- C3: when the model's text output is not valid JSON, `analyze_article`
returns `success = false` with the underlying parse error surfaced in
`error`, while `tokens_used` (with `total = prompt + completion`) and
`cost_usd` remain populated from the response's usage metadata. -/
theorem C3_parse_failure_preserves_usage (a : ArticleData) (usage : Option Usage)
    (choice0 : MsgChoice) (rest : List MsgChoice) (content msg : String)
    (jl : String → JsonLoadsResult)
    (htext : ¬ pyStrip (a.text.getD "") = "")
    (hcontent : choice0.content = some content)
    (hne : ¬ content = "")
    (hjson : jl content = JsonLoadsResult.decodeError msg) :
    (analyze_article a (ApiOutcome.response ⟨usage, choice0 :: rest⟩) jl).success = false ∧
    (analyze_article a (ApiOutcome.response ⟨usage, choice0 :: rest⟩) jl).error =
      some ("Failed to parse JSON from model response: " ++ msg) ∧
    (analyze_article a (ApiOutcome.response ⟨usage, choice0 :: rest⟩) jl).tokens_used =
      { prompt := usagePromptTokens usage,
        completion := usageCompletionTokens usage,
        total := usagePromptTokens usage + usageCompletionTokens usage } ∧
    (analyze_article a (ApiOutcome.response ⟨usage, choice0 :: rest⟩) jl).tokens_used.total =
      (analyze_article a (ApiOutcome.response ⟨usage, choice0 :: rest⟩) jl).tokens_used.prompt +
      (analyze_article a (ApiOutcome.response ⟨usage, choice0 :: rest⟩) jl).tokens_used.completion ∧
    (analyze_article a (ApiOutcome.response ⟨usage, choice0 :: rest⟩) jl).cost_usd =
      calculate_cost (usagePromptTokens usage) (usageCompletionTokens usage) := by
  have key : analyze_article a (ApiOutcome.response ⟨usage, choice0 :: rest⟩) jl =
      { analysisBase with
        tokens_used :=
          { prompt := usagePromptTokens usage,
            completion := usageCompletionTokens usage,
            total := usagePromptTokens usage + usageCompletionTokens usage },
        cost_usd := calculate_cost (usagePromptTokens usage) (usageCompletionTokens usage),
        error := some ("Failed to parse JSON from model response: " ++ msg) } := by
    unfold analyze_article
    simp only [htext, if_false, hcontent, hne, hjson]
  rw [key]
  exact ⟨rfl, rfl, rfl, rfl, rfl⟩

/-- C3, witness: a concrete malformed-JSON response with usage metadata
`(7, 5)` keeps tokens `7 + 5 = 12` and the computed cost. -/
theorem C3_parse_failure_preserves_usage_witness :
    (analyze_article ⟨some "T", some "A long enough article body."⟩
      (ApiOutcome.response ⟨some ⟨7, 5⟩, [⟨some "not json"⟩]⟩)
      (fun _ => JsonLoadsResult.decodeError "Expecting value: line 1 column 1 (char 0)")).success = false ∧
    (analyze_article ⟨some "T", some "A long enough article body."⟩
      (ApiOutcome.response ⟨some ⟨7, 5⟩, [⟨some "not json"⟩]⟩)
      (fun _ => JsonLoadsResult.decodeError "Expecting value: line 1 column 1 (char 0)")).error =
      some ("Failed to parse JSON from model response: " ++ "Expecting value: line 1 column 1 (char 0)") ∧
    (analyze_article ⟨some "T", some "A long enough article body."⟩
      (ApiOutcome.response ⟨some ⟨7, 5⟩, [⟨some "not json"⟩]⟩)
      (fun _ => JsonLoadsResult.decodeError "Expecting value: line 1 column 1 (char 0)")).tokens_used =
      { prompt := usagePromptTokens (some ⟨7, 5⟩),
        completion := usageCompletionTokens (some ⟨7, 5⟩),
        total := usagePromptTokens (some ⟨7, 5⟩) + usageCompletionTokens (some ⟨7, 5⟩) } ∧
    (analyze_article ⟨some "T", some "A long enough article body."⟩
      (ApiOutcome.response ⟨some ⟨7, 5⟩, [⟨some "not json"⟩]⟩)
      (fun _ => JsonLoadsResult.decodeError "Expecting value: line 1 column 1 (char 0)")).tokens_used.total =
      (analyze_article ⟨some "T", some "A long enough article body."⟩
        (ApiOutcome.response ⟨some ⟨7, 5⟩, [⟨some "not json"⟩]⟩)
        (fun _ => JsonLoadsResult.decodeError "Expecting value: line 1 column 1 (char 0)")).tokens_used.prompt +
      (analyze_article ⟨some "T", some "A long enough article body."⟩
        (ApiOutcome.response ⟨some ⟨7, 5⟩, [⟨some "not json"⟩]⟩)
        (fun _ => JsonLoadsResult.decodeError "Expecting value: line 1 column 1 (char 0)")).tokens_used.completion ∧
    (analyze_article ⟨some "T", some "A long enough article body."⟩
      (ApiOutcome.response ⟨some ⟨7, 5⟩, [⟨some "not json"⟩]⟩)
      (fun _ => JsonLoadsResult.decodeError "Expecting value: line 1 column 1 (char 0)")).cost_usd =
      calculate_cost (usagePromptTokens (some ⟨7, 5⟩)) (usageCompletionTokens (some ⟨7, 5⟩)) :=
  C3_parse_failure_preserves_usage ⟨some "T", some "A long enough article body."⟩
    (some ⟨7, 5⟩) ⟨some "not json"⟩ [] "not json"
    "Expecting value: line 1 column 1 (char 0)"
    (fun _ => JsonLoadsResult.decodeError "Expecting value: line 1 column 1 (char 0)")
    (by decide) rfl (by decide) rfl

/-- C7: a download timeout makes `extract_article` return a record with
`success = false` and a timeout message containing "timed out"; the parse
stage is never reached (all content fields stay absent) and the pipeline
halts without invoking the analyzer (for every analyzer function the
pipeline step yields nothing). -/
theorem C7_timeout_halts_pipeline (url : String)
    (h : pyStartsWith url "http://" = true ∨ pyStartsWith url "https://" = true) :
    extract_article url FetchOutcome.timeout = Except.ok
      { title := none, text := none, authors := none, publish_date := none,
        url := url, success := false,
        error := some ("Request timed out after 15 seconds while downloading from " ++ url) } ∧
    (∃ pre post, "Request timed out after 15 seconds while downloading from " ++ url =
      pre ++ "timed out" ++ post) ∧
    (∀ analyze, pipeline_step (extract_article url FetchOutcome.timeout) analyze = none) := by
  have hu : ¬ url = "" := by
    intro he
    subst he
    rcases h with h | h <;> exact absurd h (by decide)
  have hext : extract_article url FetchOutcome.timeout = Except.ok
      { title := none, text := none, authors := none, publish_date := none,
        url := url, success := false,
        error := some ("Request timed out after 15 seconds while downloading from " ++ url) } := by
    unfold extract_article
    rw [if_neg hu, if_neg (not_not_intro h)]
  refine ⟨hext, ⟨"Request ", " after 15 seconds while downloading from " ++ url, ?_⟩, ?_⟩
  · rw [← String.append_assoc]
    have : ("Request timed out after 15 seconds while downloading from " : String) =
        ("Request " ++ "timed out") ++ " after 15 seconds while downloading from " := by decide
    rw [this, String.append_assoc, String.append_assoc]
  · intro analyze
    rw [hext]
    rfl

/-- C7, witness: the concrete URL `https://slow.example.com`. -/
theorem C7_timeout_halts_pipeline_witness :
    extract_article "https://slow.example.com" FetchOutcome.timeout = Except.ok
      { title := none, text := none, authors := none, publish_date := none,
        url := "https://slow.example.com", success := false,
        error := some ("Request timed out after 15 seconds while downloading from " ++ "https://slow.example.com") } ∧
    (∃ pre post, "Request timed out after 15 seconds while downloading from " ++ "https://slow.example.com" =
      pre ++ "timed out" ++ post) ∧
    (∀ analyze, pipeline_step (extract_article "https://slow.example.com" FetchOutcome.timeout) analyze = none) :=
  C7_timeout_halts_pipeline "https://slow.example.com" (Or.inr (by decide))

/-- C8: every request failure (connection failure, timeout, non-2xx HTTP
status, or other request exception) makes the morning-update fetchers log
and return the empty result of their family: `{}` (here `none`) for
`get_weather_forecast` — whichever of its two requests failed — and the
empty list for `get_news_headlines`; no structured error is attached and
nothing is raised. -/
theorem C8_fetch_failures_return_empty :
    (∀ city f meteoReq, get_weather_forecast city (ReqOutcome.failure f) meteoReq = none) ∧
    (∀ city place_data f,
      get_weather_forecast city (ReqOutcome.ok place_data) (ReqOutcome.failure f) = none) ∧
    (∀ f, get_news_headlines (ReqOutcome.failure f) = []) := by
  refine ⟨fun city f m => rfl, fun city pd f => ?_, fun f => rfl⟩
  cases pd <;> rfl

/-- C4, counterexample: two chat responses identical except for their
token counts yield identical `generate_update` results, while the
`UpdateResult` required by the claim would carry different costs — so the
value returned by `generate_update` contains no cost figure computed from
the response's token counts. -/
theorem C4_generate_update_no_cost_counterexample :
    generate_update ⟨"Dakar", "Sunny", some 25, none, none⟩ [⟨"T", "D"⟩]
      ⟨some ⟨0, 0⟩, [⟨some "Good morning, Dakar!"⟩]⟩ =
    generate_update ⟨"Dakar", "Sunny", some 25, none, none⟩ [⟨"T", "D"⟩]
      ⟨some ⟨1000000, 0⟩, [⟨some "Good morning, Dakar!"⟩]⟩ ∧
    generate_update_spec ⟨"Dakar", "Sunny", some 25, none, none⟩ [⟨"T", "D"⟩]
      ⟨some ⟨0, 0⟩, [⟨some "Good morning, Dakar!"⟩]⟩ ≠
    generate_update_spec ⟨"Dakar", "Sunny", some 25, none, none⟩ [⟨"T", "D"⟩]
      ⟨some ⟨1000000, 0⟩, [⟨some "Good morning, Dakar!"⟩]⟩ := by
  refine ⟨rfl, fun he => ?_⟩
  have hc := congrArg UpdateResult.costUsd he
  simp only [generate_update_spec] at hc
  norm_num [calculate_cost] at hc

/-- C4, amended: the morning-update generator returns only the raw text
of the model response's first choice — no cost figure is computed
anywhere in the morning-update pipeline, and the returned value is
independent of the response's token counts.  The same holds for the
`generate_text` variant. -/
theorem C4_generate_update_amended :
    (∀ w hs usage choice0 rest,
      generate_update w hs ⟨usage, choice0 :: rest⟩ = Except.ok choice0.content) ∧
    (∀ w hs u1 u2 cs, generate_update w hs ⟨u1, cs⟩ = generate_update w hs ⟨u2, cs⟩) ∧
    (∀ p usage choice0 rest,
      generate_text p ⟨usage, choice0 :: rest⟩ = Except.ok choice0.content) :=
  ⟨fun _ _ _ _ _ => rfl, fun w hs u1 u2 cs => by cases cs <;> rfl, fun _ _ _ _ => rfl⟩

/-- C10: for every record returned (not raised) by `extract_article` and
every record returned by `analyze_article`, `success = false` holds
exactly when the `error` field is a non-null, non-empty string; in
particular `success = true` implies `error` is null, and every failure
path sets a non-empty error message. -/
theorem C10_success_error_invariant :
    (∀ url outcome r, extract_article url outcome = Except.ok r →
      (r.success = false ↔ ∃ e, r.error = some e ∧ ¬ e = "")) ∧
    (∀ a call jl,
      ((analyze_article a call jl).success = false ↔
        ∃ e, (analyze_article a call jl).error = some e ∧ ¬ e = "")) := by
  constructor
  · intro url outcome r h
    unfold extract_article at h
    by_cases hu : url = ""
    · rw [if_pos hu] at h
      exact absurd h (by simp)
    · rw [if_neg hu] at h
      by_cases hs : pyStartsWith url "http://" = true ∨ pyStartsWith url "https://" = true
      · rw [if_neg (not_not_intro hs)] at h
        rcases outcome with _ | msg | msg | ⟨title, text, authors, pd⟩
        · injection h with h
          subst h
          refine ⟨fun _ => ⟨_, rfl, ?_⟩, fun _ => rfl⟩
          exact ne_empty_of_data_ne_nil _ (data_append_ne_nil _ _ (by decide))
        · injection h with h
          subst h
          refine ⟨fun _ => ⟨_, rfl, ?_⟩, fun _ => rfl⟩
          exact ne_empty_of_data_ne_nil _
            (data_append_ne_nil _ _ (data_append_ne_nil _ _ (data_append_ne_nil _ _ (by decide))))
        · injection h with h
          subst h
          refine ⟨fun _ => ⟨_, rfl, ?_⟩, fun _ => rfl⟩
          exact ne_empty_of_data_ne_nil _
            (data_append_ne_nil _ _ (data_append_ne_nil _ _ (data_append_ne_nil _ _ (by decide))))
        · simp only at h
          by_cases ht : textTooShort text = true
          · rw [if_pos ht] at h
            injection h with h
            subst h
            refine ⟨fun _ => ⟨_, rfl, by decide⟩, fun _ => rfl⟩
          · rw [if_neg ht] at h
            injection h with h
            subst h
            simp
      · rw [if_pos hs] at h
        exact absurd h (by simp)
  · intro a call jl
    unfold analyze_article
    by_cases ht : pyStrip (a.text.getD "") = ""
    · simp only [ht, if_true]
      refine ⟨fun _ => ⟨_, rfl, by decide⟩, fun _ => rfl⟩
    · simp only [ht, if_false]
      rcases call with msg | ⟨usage, choices⟩
      · refine ⟨fun _ => ⟨_, rfl, ?_⟩, fun _ => rfl⟩
        exact ne_empty_of_data_ne_nil _ (data_append_ne_nil _ _ (by decide))
      · rcases choices with _ | ⟨choice0, rest⟩
        · refine ⟨fun _ => ⟨_, rfl, ?_⟩, fun _ => rfl⟩
          exact ne_empty_of_data_ne_nil _ (data_append_ne_nil _ _ (by decide))
        · rcases hco : choice0.content with _ | content
          · simp only [hco]
            refine ⟨fun _ => ⟨_, rfl, by decide⟩, fun _ => rfl⟩
          · simp only [hco]
            by_cases hc : content = ""
            · rw [if_pos hc]
              refine ⟨fun _ => ⟨_, rfl, by decide⟩, fun _ => rfl⟩
            · rw [if_neg hc]
              rcases hjl : jl content with msg | msg | parsed
              · simp only [hjl]
                constructor
                · intro _
                  refine ⟨_, rfl, ?_⟩
                  exact ne_empty_of_data_ne_nil _ (data_append_ne_nil _ _ (by decide))
                · intro _
                  rfl
              · simp only [hjl]
                constructor
                · intro _
                  refine ⟨_, rfl, ?_⟩
                  exact ne_empty_of_data_ne_nil _ (data_append_ne_nil _ _ (by decide))
                · intro _
                  trivial
              · simp only [hjl]
                simp

/-- C10, witness: the invariant instantiated at a returned timeout record
and at a concrete analyzer failure. -/
theorem C10_success_error_invariant_witness :
    (({ title := none, text := none, authors := none, publish_date := none,
        url := "https://b.org", success := false,
        error := some "Request timed out after 15 seconds while downloading from https://b.org" } :
        ExtractionResult).success = false ↔
      ∃ e, ({ title := none, text := none, authors := none, publish_date := none,
              url := "https://b.org", success := false,
              error := some "Request timed out after 15 seconds while downloading from https://b.org" } :
              ExtractionResult).error = some e ∧ ¬ e = "") ∧
    ((analyze_article ⟨none, none⟩ (ApiOutcome.raised "boom")
        (fun _ => JsonLoadsResult.dict ⟨none, none, none, none⟩)).success = false ↔
      ∃ e, (analyze_article ⟨none, none⟩ (ApiOutcome.raised "boom")
        (fun _ => JsonLoadsResult.dict ⟨none, none, none, none⟩)).error = some e ∧ ¬ e = "") :=
  ⟨(C10_success_error_invariant).1 "https://b.org" FetchOutcome.timeout _ rfl,
   (C10_success_error_invariant).2 ⟨none, none⟩ (ApiOutcome.raised "boom")
     (fun _ => JsonLoadsResult.dict ⟨none, none, none, none⟩)⟩

/-- Decoding the encoding of a nullable string gives it back. -/
lemma asOptStr_optStrJson (x : Option String) : (optStrJson x).asOptStr = some x := by
  cases x <;> rfl

/-- Decoding the encoding of a list of strings gives it back. -/
lemma decodeStrs_map_jstr (l : List String) : decodeStrs (l.map Json.jstr) = some l := by
  induction l with
  | nil => rfl
  | cons s rest ih => simp [decodeStrs, Json.asStr, ih]

/-- Decoding the numeric encoding of a natural number gives it back. -/
lemma asNat_jnum_cast (n : ℕ) : (Json.jnum (n : ℚ)).asNat = some n := by
  simp [Json.asNat, Rat.den_natCast, Rat.num_natCast, Int.natCast_nonneg, Int.toNat_natCast]

/-- Decoding the numeric encoding of an integer gives it back. -/
lemma asInt_jnum_cast (z : ℤ) : (Json.jnum (z : ℚ)).asInt = some z := by
  simp [Json.asInt, Rat.den_intCast, Rat.num_intCast]

/-- Round trip of the `article` object. -/
lemma extraction_fromJson_toJson (r : ExtractionResult) :
    ExtractionResult.fromJson r.toJson = some r := by
  rcases r with ⟨title, text, authors, pd, url, succ, err⟩
  rcases authors with _ | l <;>
    simp [ExtractionResult.fromJson, ExtractionResult.toJson, Json.getField, lookupField,
      asOptStr_optStrJson, Json.asStr, Json.asBool, Json.asOptStrList, decodeStrs_map_jstr]

/-- Round trip of the `sentiment` object. -/
lemma sentiment_fromJson_toJson (s : Sentiment) : Sentiment.fromJson s.toJson = some s := by
  rcases s with ⟨label, confidence⟩
  simp [Sentiment.fromJson, Sentiment.toJson, Json.getField, lookupField, Json.asStr, Json.asNum]

/-- Round trip of the `tokens_used` object. -/
lemma tokens_fromJson_toJson (t : TokensUsed) : TokensUsed.fromJson t.toJson = some t := by
  rcases t with ⟨p, c, tt⟩
  simp [TokensUsed.fromJson, TokensUsed.toJson, Json.getField, lookupField, asNat_jnum_cast]

/-- Round trip of the `analysis` object. -/
lemma analysis_fromJson_toJson (a : AnalysisResult) :
    AnalysisResult.fromJson a.toJson = some a := by
  rcases a with ⟨summary, sentiment, kp, rtm, tu, cost, succ, err⟩
  simp [AnalysisResult.fromJson, AnalysisResult.toJson, Json.getField, lookupField,
    Json.asStr, Json.asNum, Json.asBool, Json.asStrList, asOptStr_optStrJson,
    decodeStrs_map_jstr, asInt_jnum_cast, sentiment_fromJson_toJson, tokens_fromJson_toJson]

/-- C9: serializing an extraction/analysis pair to the persisted JSON
format (`{"article": ..., "analysis": ..., "saved_at": ...}`) and parsing
the file back yields the article and analysis records field-for-field
equal to the originals. -/
theorem C9_save_parse_roundtrip (article : ExtractionResult) (analysis : AnalysisResult)
    (saved_at : String) :
    parse_saved (save_results article analysis saved_at) = some (article, analysis) := by
  simp [parse_saved, save_results, Json.getField, lookupField,
    extraction_fromJson_toJson, analysis_fromJson_toJson]

end Portfolio
